import Mathlib

/-!
Verification of the conversational core of the telegram file-organizer bot
(src/telegram_bot.py, src/utils.py, src/handlers.py).

The filesystem-backed store (directories under BASE_DIR, one per category,
holding plain files) is modelled as an ordered association list of
categories, each carrying its files as (name, content) pairs in listing
order.  Python exceptions become an explicit error type; chat I/O calls
become an effect list; the fallibility of the chat transport (an edit of a
message that no longer exists) and of file I/O inside a try block is
modelled by boolean oracles, as the spec treats both gateways as external
fallible collaborators.
-/

/-- Categories in listing order; each category is (name, files), files are
(name, content) pairs in listing order. -/
abbrev Store := List (String × List (String × String))

/-- Errors a Python handler can raise or catch: FileNotFoundError,
FileExistsError, ValueError (tuple-unpack arity mismatch), TypeError
(unpacking None), and a transport error from a failed message edit. -/
inductive PyError where
  | fileNotFound
  | fileExists
  | valueError
  | typeError
  | badRequest
deriving DecidableEq, Repr

/-- Prefix test on character lists (Python str.startswith). -/
def isPrefB : List Char → List Char → Bool
  | [], _ => true
  | _ :: _, [] => false
  | a :: as, b :: bs => a == b && isPrefB as bs

/-- Contiguous-substring test on character lists (Python `needle in haystack`). -/
def substrB (needle : List Char) : List Char → Bool
  | [] => needle.isEmpty
  | c :: rest => isPrefB needle (c :: rest) || substrB needle rest

/-- Python `needle in haystack` on strings. -/
def pyIn (needle haystack : String) : Bool :=
  substrB needle.toList haystack.toList

/-- Python str.startswith on strings. -/
def pyStartswith (s pre : String) : Bool :=
  isPrefB pre.toList s.toList

/-- Python str.lower, restricted to the ASCII case mapping of Char.toLower. -/
def pyLower (s : String) : String :=
  String.mk (s.toList.map Char.toLower)

/-- Whitespace characters stripped by Python str.strip() (ASCII subset). -/
def isPySpace (c : Char) : Bool :=
  c == ' ' || c == '\t' || c == '\n' || c == '\r' || c == '\x0b' || c == '\x0c'

/-- Python str.strip(). -/
def pyStrip (s : String) : String :=
  String.mk (((s.toList.dropWhile isPySpace).reverse.dropWhile isPySpace).reverse)

/-- Python str.split(sep) for a one-character separator, all occurrences. -/
def splitCh (sep : Char) : List Char → List (List Char)
  | [] => [[]]
  | c :: rest =>
    if c == sep then [] :: splitCh sep rest
    else
      match splitCh sep rest with
      | [] => [[c]]
      | h :: t => (c :: h) :: t

/-- Python str.split(sep, 1) for a one-character separator: split at the
first occurrence only. -/
def splitFirstCh (sep : Char) : List Char → List (List Char)
  | [] => [[]]
  | c :: rest =>
    if c == sep then [[], rest]
    else
      match splitFirstCh sep rest with
      | [] => [[c]]
      | h :: t => (c :: h) :: t

/-- Python str.split applied to the two-character separator "->", all
occurrences, as used by the renomear text handler. -/
def splitArrow : List Char → List (List Char)
  | [] => [[]]
  | '-' :: '>' :: rest => [] :: splitArrow rest
  | c :: rest =>
    match splitArrow rest with
    | [] => [[c]]
    | h :: t => (c :: h) :: t

/-- String wrapper for splitCh. -/
def pySplitCh (s : String) (sep : Char) : List String :=
  (splitCh sep s.toList).map String.mk

/-- String wrapper for splitArrow. -/
def pySplitArrow (s : String) : List String :=
  (splitArrow s.toList).map String.mk

/-- Part of a payload after its first colon: data.split(":", 1)[1]. Returns
"" when no colon is present (the Python indexing would raise; all call
sites have already prefix-matched a verb ending in a colon). -/
def afterFirstColon (data : String) : String :=
  match splitFirstCh ':' data.toList with
  | _ :: rest :: _ => String.mk rest
  | _ => ""

/-- Helper of os.path.splitext: returns some (base, ext) when the name has
an extension (a last dot preceded somewhere by a non-dot character), where
the boolean records whether a non-dot character occurred before the
current position. -/
def splitextGo : List Char → Bool → Option (List Char × List Char)
  | [], _ => none
  | c :: rest, seen =>
    match splitextGo rest (seen || c != '.') with
    | some (b, e) => some (c :: b, e)
    | none => if c == '.' && seen then some ([], c :: rest) else none

/-- Behaviour of os.path.splitext on the slash-free file names used within a
category: split at the last dot, provided a non-dot character precedes it;
otherwise the extension is empty. -/
def splitext (p : String) : String × String :=
  match splitextGo p.toList false with
  | none => (p, "")
  | some (b, e) => (String.mk b, String.mk e)

/-- Test from utils.list_categories restricted to one name: whether a
category directory exists. -/
def existsCat (s : Store) (c : String) : Bool :=
  s.any (fun cat => cat.1 == c)

/-- Test of os.path.exists on BASE_DIR/category/name: the file is present in
some category of that name. -/
def existsFile (s : Store) (c n : String) : Bool :=
  s.any (fun cat => cat.1 == c && cat.2.any (fun f => f.1 == n))

/-- Content found at BASE_DIR/category/name, scanning categories and files
in listing order. -/
def getContent (s : Store) (c n : String) : Option String :=
  s.findSome? (fun cat =>
    if cat.1 = c then
      cat.2.findSome? (fun f => if f.1 = n then some f.2 else none)
    else none)

/-- Model of ensure_category_exists (telegram_bot.py line 20, utils.py line
19): os.makedirs(..., exist_ok=True) creates the category directory when
absent and is a no-op otherwise. -/
def ensure_category_exists (s : Store) (c : String) : Store :=
  if existsCat s c then s else s ++ [(c, [])]

/-- Update of one category file list by open(path, "w"): overwrite the file
content when the name is present, else append the new file at the end. -/
def writeInCat (files : List (String × String)) (n content : String) :
    List (String × String) :=
  if files.any (fun f => f.1 == n) then
    files.map (fun f => if f.1 = n then (n, content) else f)
  else files ++ [(n, content)]

/-- Model of writing BASE_DIR/c/n: the first category named c receives the
write; when no such category exists the write creates it (callers always
ensure the category first). -/
def writeFile : Store → String → String → String → Store
  | [], c, n, content => [(c, [(n, content)])]
  | cat :: rest, c, n, content =>
    if cat.1 = c then (cat.1, writeInCat cat.2 n content) :: rest
    else cat :: writeFile rest c n content

/-- Model of utils.list_files_in_category / telegram_bot.list_files_in_category. -/
def list_files_in_category (s : Store) (c : String) : List String :=
  match s.find? (fun cat => cat.1 == c) with
  | none => []
  | some cat => cat.2.map (fun f => f.1)

/-- Model of search_files (telegram_bot.py lines 48-56, utils.py lines
44-52): for every category, every file whose lowercased NAME contains the
lowercased term is reported as "category/filename". -/
def search_files (s : Store) (term : String) : List String :=
  s.flatMap (fun cat =>
    (cat.2.filter (fun f => pyIn (pyLower term) (pyLower f.1))).map
      (fun f => cat.1 ++ "/" ++ f.1))

/-- Modelled from the spec (refinement target for C4, not from the source):
search as the spec sentence describes it, a case-insensitive substring
match over the combined "category/filename" string. -/
def search_files_spec (s : Store) (term : String) : List String :=
  s.flatMap (fun cat =>
    (cat.2.filter (fun f => pyIn (pyLower term) (pyLower (cat.1 ++ "/" ++ f.1)))).map
      (fun f => cat.1 ++ "/" ++ f.1))

/-- Effect of os.rename on BASE_DIR/c/old -> BASE_DIR/c/new: within the
categories named c, the file entries named old take the name new. -/
def renameMap (s : Store) (c old new : String) : Store :=
  s.map (fun cat =>
    if cat.1 == c then
      (cat.1, cat.2.map (fun f => if f.1 == old then (new, f.2) else f))
    else cat)

/-- Effect of os.remove on BASE_DIR/c/n (existence already checked by the
caller). -/
def removeFile (s : Store) (c n : String) : Store :=
  s.map (fun cat =>
    if cat.1 == c then (cat.1, cat.2.filter (fun f => f.1 != n)) else cat)

/-- Model of rename_file (telegram_bot.py lines 59-72, utils.py lines
54-67): raise FileNotFoundError when the old path is absent, then
FileExistsError when the new path is present, else os.rename. -/
def rename_file (s : Store) (category old new : String) :
    Except PyError Store :=
  if !existsFile s category old then .error .fileNotFound
  else if existsFile s category new then .error .fileExists
  else .ok (renameMap s category old new)

/-- Model of delete_file (telegram_bot.py lines 75-84, utils.py lines
69-78): raise FileNotFoundError when the path is absent, else os.remove. -/
def delete_file (s : Store) (category n : String) : Except PyError Store :=
  if !existsFile s category n then .error .fileNotFound
  else .ok (removeFile s category n)

/-- Staged upload (user_data["temp_file"]): display name, kind tag
(document / photo / video / audio / voice / note), the staged content (the
note body, or the bytes reachable through the temp path), and whether the
temporary file still exists on disk at commit time (the os.path.exists
check on temp_file["caminho"]). -/
structure TempFile where
  nome : String
  tipo : String
  conteudo : String := ""
  caminhoExists : Bool := true
deriving DecidableEq, Repr

/-- Per-user session state (context.user_data). A missing dictionary key is
modelled as none; no handler ever stores an empty-string mode, so Python
falsiness of modo coincides with none. -/
structure Session where
  categoria : Option String := none
  modo : Option String := none
  temp_file : Option TempFile := none
  nota_titulo : Option String := none
  nota_conteudo : Option String := none
  temp_texto : Option String := none
  temp_nota_conteudo : Option String := none
  current_file_path : Option String := none
deriving DecidableEq, Repr

/-- Outbound chat-gateway calls. Reply keyboards are not modelled: no
keyboard influences control flow or storage. File sends carry the path of
the file being transmitted. -/
inductive Effect where
  | answerCallback
  | editMessage (text : String)
  | sendMessage (text : String)
  | sendPhoto (path : String)
  | sendDocument (path : String)
  | deleteMessage
deriving DecidableEq, Repr

/-- Prompt text of mostrar_opcoes_categoria (telegram_bot.py lines 221-269),
built from the staged upload name with default "arquivo". -/
def opcoesMsg (sess : Session) : String :=
  (match sess.temp_file with
   | some tf => "📄 Arquivo: " ++ tf.nome
   | none => "📄 Arquivo: arquivo") ++
  "\n\n📂 Escolha uma categoria para salvar ou crie uma nova:"

/-- Model of mostrar_opcoes_categoria: in a callback context the triggering
message is edited (an edit of a vanished message raises), in a message
context the prompt is sent as a reply (modelled infallible). -/
def mostrar_opcoes_categoria (isCallback editFails : Bool) (sess : Session) :
    Except PyError (List Effect) :=
  if isCallback then
    if editFails then .error .badRequest else .ok [.editMessage (opcoesMsg sess)]
  else .ok [.sendMessage (opcoesMsg sess)]

/-- Final file name chosen by salvar_arquivo_categoria (telegram_bot.py
lines 286-295): when the name is taken in the category, append one
timestamp between base name and extension; the resulting name is not
re-checked for existence. -/
def collision_final_name (store1 : Store) (categoria nome ts : String) : String :=
  if existsFile store1 categoria nome then
    (splitext nome).1 ++ "_" ++ ts ++ (splitext nome).2
  else nome

/-- Model of salvar_arquivo_categoria (telegram_bot.py lines 272-352).
Returns the Python return value (None on the missing-upload early return,
else the (message, has-reply-markup) pair) with the updated session and
store. The fail flag models an I/O exception raised inside the try block
(taken here as raised before any write); the except arm builds the error
message (its str(e) interpolation is elided) and the finally arm always
deletes temp_file. -/
def salvar_arquivo_categoria (fail : Bool) (sess : Session) (store : Store)
    (categoria ts : String) : Option (String × Bool) × Session × Store :=
  match sess.temp_file with
  | none => (none, sess, store)
  | some tf =>
    if fail then
      (some ( "❌ Erro ao salvar o arquivo: \nPor favor, tente novamente.", false),
       { sess with temp_file := none }, store)
    else
      let store1 := ensure_category_exists store categoria
      let nome_arquivo := collision_final_name store1 categoria tf.nome ts
      let store2 :=
        if tf.tipo == "note" then writeFile store1 categoria nome_arquivo tf.conteudo
        else if tf.caminhoExists then writeFile store1 categoria nome_arquivo tf.conteudo
        else store1
      let msg :=
        if tf.tipo == "note" then
          "✅ Nota salva com sucesso!\n📂 Categoria: " ++ categoria ++ "\n📄 Nome: " ++ nome_arquivo
        else
          "✅ Arquivo salvo com sucesso!\n📂 Categoria: " ++ categoria ++ "\n📄 Nome: " ++ nome_arquivo
      (some (msg, true), { sess with categoria := some categoria, temp_file := none }, store2)

/-- Generic except-arm reply of the renomear text branch; the str(e)
interpolation is elided. -/
def renomearGenericErr : String := "❌ Erro ao renomear o arquivo: "

/-- Generic except-arm reply of the excluir text branch; the str(e)
interpolation is elided. -/
def excluirGenericErr : String := "❌ Erro ao excluir o arquivo: "

/-- Model of tratar_texto (telegram_bot.py lines 1120-1393), the text-mode
dispatcher. saveFail is the I/O-failure oracle threaded to
salvar_arquivo_categoria; ts stands for datetime.now timestamps. Replies
(update.message.reply_text) are message-context sends, modelled
infallible. -/
def tratar_texto (saveFail : Bool) (sess : Session) (store : Store)
    (text ts : String) : List Effect × Session × Store :=
  match sess.modo with
  | none =>
    if text.length > 3 then
      ([.sendMessage "📝 *Nota de Texto Detectada*\n\nDeseja escolher um título personalizado ou salvar com título padrão?"],
       { sess with temp_nota_conteudo := some text,
                   temp_file := some { nome := "nota_" ++ ts ++ ".txt", tipo := "note",
                                       conteudo := text } },
       store)
    else
      ([.sendMessage "Use /menu para acessar as opções do bot."], sess, store)
  | some "renomear_antes_salvar" =>
    let novo_nome := pyStrip text
    if novo_nome == "" then
      ([.sendMessage "❌ Por favor, forneça um nome válido para o arquivo."], sess, store)
    else
      match sess.temp_file with
      | some tf =>
        let novo2 :=
          if pyIn "." tf.nome && !(pyIn "." novo_nome) then
            novo_nome ++ "." ++ (pySplitCh tf.nome '.').getLastD ""
          else novo_nome
        let sess2 := { sess with temp_file := some { tf with nome := novo2 } }
        ((match mostrar_opcoes_categoria false false sess2 with
          | .ok effs => effs
          | .error _ => []),
         { sess2 with modo := none }, store)
      | none =>
        ([.sendMessage "❌ Erro: Nenhum arquivo para renomear. Por favor, envie o arquivo novamente."],
         { sess with modo := none }, store)
  | some "criar_nota_titulo" =>
    let titulo := pyStrip text
    if titulo == "" then
      ([.sendMessage "❌ Por favor, forneça um título válido para a nota."], sess, store)
    else
      ([.sendMessage ( "📝 Título da nota: " ++ titulo ++ "\n\nAgora, por favor, digite o conteúdo da sua nota:")],
       { sess with nota_titulo := some titulo, modo := some "criar_nota_conteudo" }, store)
  | some "criar_nota_conteudo" =>
    let conteudo := text
    let titulo := sess.nota_titulo.getD "Nota sem título"
    if conteudo == "" then
      ([.sendMessage "❌ Por favor, forneça algum conteúdo para a nota."], sess, store)
    else
      let nome_arquivo :=
        String.mk ((titulo ++ "_" ++ ts ++ ".txt").toList.map
          (fun c => if c == '/' || c == '\\' then '_' else c))
      let sess2 := { sess with temp_file := some { nome := nome_arquivo, tipo := "note",
                                                   conteudo := conteudo } }
      ((match mostrar_opcoes_categoria false false sess2 with
        | .ok effs => effs
        | .error _ => []),
       { sess2 with modo := none, nota_titulo := none }, store)
  | some "nova_categoria" =>
    let nome_categoria := pyStrip text
    if nome_categoria == "" then
      ([.sendMessage "❌ Por favor, forneça um nome válido para a categoria."], sess, store)
    else
      match sess.temp_file with
      | some _ =>
        let r := salvar_arquivo_categoria saveFail sess store nome_categoria ts
        ([.sendMessage (match r.1 with | some (m, _) => m | none => "")],
         { r.2.1 with modo := none }, r.2.2)
      | none =>
        ([.sendMessage ( "✅ Categoria \x27" ++ nome_categoria ++ "\x27 criada com sucesso!\nEsta agora é sua categoria padrão para upload de arquivos.")],
         { sess with categoria := some nome_categoria, modo := none },
         ensure_category_exists store nome_categoria)
  | some "buscar" =>
    let termo := pyLower text
    if termo.length < 3 then
      ([.sendMessage "🔍 Por favor, digite pelo menos 3 caracteres para a busca."], sess, store)
    else
      let resultados := search_files store termo
      ((if resultados.isEmpty then
          [.sendMessage ( "🔍 Nenhum arquivo encontrado para \x27" ++ termo ++ "\x27.")]
        else
          [.sendMessage ( "🔍 Resultado da busca por \x27" ++ termo ++ "\x27:\nClique em um arquivo para visualizar:")]),
       { sess with modo := none }, store)
  | some "renomear" =>
    let entrada := pyStrip text
    if !(pyIn "->" entrada) then
      ([.sendMessage "❌ Formato inválido. Use: categoria/nome_antigo.ext -> novo_nome.ext"],
       { sess with modo := none }, store)
    else
      match pySplitArrow entrada with
      | [parte1, novoNomeRaw] =>
        if !(pyIn "/" parte1) then
          ([.sendMessage "❌ Formato inválido. Especifique a categoria: categoria/nome_antigo.ext"],
           { sess with modo := none }, store)
        else
          match pySplitCh (pyStrip parte1) '/' with
          | [categoria, nome_antigo] =>
            let novo_nome := pyStrip novoNomeRaw
            (match rename_file store categoria nome_antigo novo_nome with
             | .ok store2 =>
               ([.sendMessage ( "✅ Arquivo renomeado com sucesso!\n📂 Categoria: " ++ categoria ++ "\n📄 De: " ++ nome_antigo ++ "\n📄 Para: " ++ novo_nome)],
                { sess with modo := none }, store2)
             | .error .fileNotFound =>
               ([.sendMessage "❌ Arquivo não encontrado. Verifique o nome e a categoria."],
                { sess with modo := none }, store)
             | .error .fileExists =>
               ([.sendMessage "❌ Já existe um arquivo com este nome na categoria."],
                { sess with modo := none }, store)
             | .error _ =>
               ([.sendMessage renomearGenericErr], { sess with modo := none }, store))
          | _ =>
            ([.sendMessage renomearGenericErr], { sess with modo := none }, store)
      | _ =>
        ([.sendMessage renomearGenericErr], { sess with modo := none }, store)
  | some "excluir" =>
    let entrada := pyStrip text
    if !(pyIn "/" entrada) then
      ([.sendMessage "❌ Formato inválido. Use: categoria/arquivo.ext"],
       { sess with modo := none }, store)
    else
      match pySplitCh entrada '/' with
      | [categoria, nome] =>
        (match delete_file store categoria nome with
         | .ok store2 =>
           ([.sendMessage ( "✅ Arquivo excluído com sucesso!\n📂 Categoria: " ++ categoria ++ "\n📄 Arquivo: " ++ nome)],
            { sess with modo := none }, store2)
         | .error .fileNotFound =>
           ([.sendMessage "❌ Arquivo não encontrado. Verifique o nome e a categoria."],
            { sess with modo := none }, store)
         | .error _ =>
           ([.sendMessage excluirGenericErr], { sess with modo := none }, store))
      | _ =>
        ([.sendMessage excluirGenericErr], { sess with modo := none }, store)
  | some _ => ([], sess, store)

/-- Model of utils.list_categories / telegram_bot.list_categories. -/
def list_categories (s : Store) : List String :=
  s.map (fun cat => cat.1)

/-- Environment of one callback invocation: hasMsg is the
hasattr(query, "message") and query.message test; editFails makes every
query.edit_message_text raise (the triggering message no longer exists);
deleteFails makes query.delete_message raise; sendFileFails makes
bot.send_photo / bot.send_document raise; saveFail is the I/O oracle of
salvar_arquivo_categoria; ts stands for datetime.now timestamps; dashMsg
stands for create_dashboard_message(get_dashboard_stats()), produced by
the reporting collaborator the spec leaves abstract. -/
structure Ctx where
  hasMsg : Bool := true
  editFails : Bool := false
  deleteFails : Bool := false
  sendFileFails : Bool := false
  saveFail : Bool := false
  ts : String := ""
  dashMsg : String := ""
deriving DecidableEq, Repr

/-- Result of a callback invocation: either the handler returns (effects in
emission order, final session, final store) or an exception escapes it,
carrying the session and store as already mutated at the raise point. -/
abbrev BotResult := Except (PyError × Session × Store) (List Effect × Session × Store)

/-- Shared pattern "try: edit if a message is attached else send; except:
send the same text as a new message" used by the menu-style branches. -/
def editOrSendFallback (ctx : Ctx) (text : String) : List Effect :=
  if ctx.hasMsg then
    if ctx.editFails then [.sendMessage text] else [.editMessage text]
  else [.sendMessage text]

/-- Shared pattern "edit if a message is attached else send" with no
surrounding try: a failing edit raises. -/
def editOrSendNoTry (ctx : Ctx) (text : String) : Except PyError (List Effect) :=
  if ctx.hasMsg then
    if ctx.editFails then .error .badRequest else .ok [.editMessage text]
  else .ok [.sendMessage text]

/-- Availability of the bar chart (dashboard.generate_category_bar_chart):
None when there is no category or every count is zero. -/
def dashboardBarAvailable (s : Store) : Bool :=
  !s.isEmpty && s.any (fun cat => !cat.2.isEmpty)

/-- Availability of the pie chart (dashboard.generate_category_pie_chart):
None when there is no category or no category holds a file. -/
def dashboardPieAvailable (s : Store) : Bool :=
  !s.isEmpty && s.any (fun cat => !cat.2.isEmpty)

/-- Availability of the growth chart
(dashboard.generate_category_growth_chart): None only when there is no
category. -/
def dashboardGrowthAvailable (s : Store) : Bool :=
  !s.isEmpty

/-- The no-data reply of the three chart branches. -/
def semDadosMsg : String :=
  "❌ Não há dados suficientes para gerar o gráfico. Adicione arquivos às suas categorias primeiro."

/-- Image test of the visualizar branch: extension of the lowercased name
against the hardcoded list. -/
def imageExt (lowerName : String) : Bool :=
  [ ".jpg", ".jpeg", ".png", ".gif", ".bmp", ".webp"].contains (splitext lowerName).2

/-- Share text of the compartilhar branch. -/
def shareMsg (category filename : String) : String :=
  "🔗 Mensagem para compartilhar:\n\n📁 Compartilhado do Organizador de Arquivos Bot\n\n📄 Arquivo: " ++
  filename ++ "\n📂 Categoria: " ++ category ++
  "\n\nPara acessar este arquivo, solicite ao proprietário.\n\nCopie a mensagem acima para compartilhar as informações do arquivo."

/-- Payloads the router dispatch chain handles: the prefix-matched verbs
with their arity conditions and the exact-match verbs, in source order. A
payload on which this is false reaches the end of botao_clicado without
entering any branch. -/
def knownPayload (cs : List Char) : Bool :=
  (isPrefB ( "excluir_").toList cs && (splitCh '|' (cs.drop 8)).length == 2) ||
  cs == ( "renomear_antes_salvar").toList ||
  cs == ( "continuar_sem_renomear").toList ||
  cs == ( "salvar_como_nota").toList ||
  cs == ( "ignorar_texto").toList ||
  cs == ( "salvar_nota_padrao").toList ||
  cs == ( "escolher_titulo_nota").toList ||
  cs == ( "criar_nota").toList ||
  cs == ( "dashboard").toList ||
  cs == ( "dashboard_bar").toList ||
  cs == ( "dashboard_pie").toList ||
  cs == ( "dashboard_growth").toList ||
  isPrefB ( "save_to:").toList cs ||
  cs == ( "nova_categoria").toList ||
  isPrefB ( "visualizar:").toList cs ||
  isPrefB ( "compartilhar:").toList cs ||
  isPrefB ( "voltar_categoria:").toList cs ||
  cs == ( "voltar_menu").toList ||
  cs == ( "categorias").toList ||
  cs == ( "criar_categoria_menu").toList ||
  cs == ( "buscar").toList ||
  cs == ( "renomear").toList ||
  cs == ( "excluir").toList

/-- Model of botao_clicado (telegram_bot.py lines 471-1117), the callback
router. The Python sequence of early-returning if groups is flattened into
one dispatch chain (every taken branch returns). query.answer() is the
first effect; branches whose handler edits without a net or whose except
arm edits again propagate the transport error when editFails holds. -/
def botao_clicado (ctx : Ctx) (sess : Session) (store : Store) (data : String) :
    BotResult :=
  let cs := data.toList
  if isPrefB ( "excluir_").toList cs && (splitCh '|' (cs.drop 8)).length == 2 then
    match splitCh '|' (cs.drop 8) with
    | [catL, nomeL] =>
      let categoria := String.mk catL
      let nome_arquivo := String.mk nomeL
      if existsFile store categoria nome_arquivo then
        if ctx.editFails then .error (.badRequest, sess, removeFile store categoria nome_arquivo)
        else .ok ([.answerCallback,
                   .editMessage ( "✅ Arquivo *" ++ nome_arquivo ++ "* excluído com sucesso da categoria *" ++ categoria ++ "*.")],
                  sess, removeFile store categoria nome_arquivo)
      else
        if ctx.editFails then .error (.badRequest, sess, store)
        else .ok ([.answerCallback, .editMessage "❌ Arquivo não encontrado."], sess, store)
    | _ => .ok ([.answerCallback], sess, store)
  else if cs == ( "renomear_antes_salvar").toList then
    if ctx.editFails then .error (.badRequest, sess, store)
    else .ok ([.answerCallback,
               .editMessage ( "📝 Renomear Arquivo\n\nNome atual: " ++
                 (match sess.temp_file with | some tf => tf.nome | none => "") ++
                 "\n\nPor favor, digite o novo nome para o arquivo:")],
              { sess with modo := some "renomear_antes_salvar" }, store)
  else if cs == ( "continuar_sem_renomear").toList then
    match mostrar_opcoes_categoria true ctx.editFails sess with
    | .ok effs => .ok ([.answerCallback] ++ effs, sess, store)
    | .error e => .error (e, sess, store)
  else if cs == ( "salvar_como_nota").toList then
    let text := sess.temp_texto.getD ""
    if text == "" then
      if ctx.editFails then .error (.badRequest, sess, store)
      else .ok ([.answerCallback, .editMessage "❌ Erro: texto não encontrado."], sess, store)
    else
      if ctx.editFails then .error (.badRequest, sess, store)
      else .ok ([.answerCallback, .editMessage "📝 Salvar Texto como Nota\n\nDigite um título para esta nota:"],
                { sess with nota_conteudo := some text, modo := some "criar_nota_titulo",
                            temp_texto := none }, store)
  else if cs == ( "ignorar_texto").toList then
    if ctx.editFails then .error (.badRequest, sess, store)
    else .ok ([.answerCallback, .editMessage "✓ Mensagem ignorada."],
              { sess with temp_texto := none }, store)
  else if cs == ( "salvar_nota_padrao").toList then
    match sess.temp_file with
    | none =>
      if ctx.editFails then .error (.badRequest, sess, store)
      else .ok ([.answerCallback, .editMessage "❌ Erro: nota não encontrada."], sess, store)
    | some _ =>
      match mostrar_opcoes_categoria true ctx.editFails sess with
      | .ok effs => .ok ([.answerCallback] ++ effs, sess, store)
      | .error _ => .error (.badRequest, sess, store)
  else if cs == ( "escolher_titulo_nota").toList then
    if ctx.editFails then .error (.badRequest, sess, store)
    else .ok ([.answerCallback, .editMessage "📝 Escolher Título da Nota\n\nDigite um título personalizado para esta nota:"],
              { sess with modo := some "renomear_antes_salvar" }, store)
  else if cs == ( "criar_nota").toList then
    if ctx.editFails then
      .ok ([.answerCallback, .sendMessage "❌ Erro ao criar nota. Por favor, tente novamente."],
           sess, store)
    else
      .ok ([.answerCallback, .editMessage "📝 Criar Nova Nota\n\nDigite o título para sua nota:"],
           { sess with modo := some "criar_nota_titulo" }, store)
  else if cs == ( "dashboard").toList then
    .ok ([.answerCallback] ++ editOrSendFallback ctx ctx.dashMsg, sess, store)
  else if cs == ( "dashboard_bar").toList then
    if dashboardBarAvailable store then
      .ok ([.answerCallback, .sendPhoto "dashboard_bar"] ++
           (if ctx.hasMsg && !ctx.deleteFails then [.deleteMessage] else []), sess, store)
    else .ok ([.answerCallback, .sendMessage semDadosMsg], sess, store)
  else if cs == ( "dashboard_pie").toList then
    if dashboardPieAvailable store then
      .ok ([.answerCallback, .sendPhoto "dashboard_pie"] ++
           (if ctx.hasMsg && !ctx.deleteFails then [.deleteMessage] else []), sess, store)
    else .ok ([.answerCallback, .sendMessage semDadosMsg], sess, store)
  else if cs == ( "dashboard_growth").toList then
    if dashboardGrowthAvailable store then
      .ok ([.answerCallback, .sendPhoto "dashboard_growth"] ++
           (if ctx.hasMsg && !ctx.deleteFails then [.deleteMessage] else []), sess, store)
    else .ok ([.answerCallback, .sendMessage semDadosMsg], sess, store)
  else if isPrefB ( "save_to:").toList cs then
    let categoria := afterFirstColon data
    match salvar_arquivo_categoria ctx.saveFail sess store categoria ctx.ts with
    | (none, sess2, store2) => .error (.typeError, sess2, store2)
    | (some (message, _), sess2, store2) =>
      if message == "" then .ok ([.answerCallback], sess2, store2)
      else
        match editOrSendNoTry ctx message with
        | .ok effs => .ok ([.answerCallback] ++ effs, sess2, store2)
        | .error e => .error (e, sess2, store2)
  else if cs == ( "nova_categoria").toList then
    if ctx.editFails then .error (.badRequest, sess, store)
    else .ok ([.answerCallback, .editMessage "➕ Criar Nova Categoria\n\nDigite o nome da nova categoria:"],
              { sess with modo := some "nova_categoria" }, store)
  else if isPrefB ( "visualizar:").toList cs then
    let file_path := afterFirstColon data
    let sess1 := { sess with current_file_path := some file_path }
    match splitFirstCh '/' file_path.toList with
    | [catL, fnL] =>
      let category := String.mk catL
      let filename := String.mk fnL
      if !existsFile store category filename then
        match editOrSendNoTry ctx "❌ Arquivo não encontrado." with
        | .ok effs => .ok ([.answerCallback] ++ effs, sess1, store)
        | .error e => .error (e, sess1, store)
      else
        if ctx.sendFileFails then
          .ok ([.answerCallback, .sendMessage "❌ Erro ao enviar o arquivo: "], sess1, store)
        else
          .ok ([.answerCallback,
                (if imageExt (pyLower filename) then .sendPhoto (category ++ "/" ++ filename)
                 else .sendDocument (category ++ "/" ++ filename))] ++
               (if ctx.hasMsg && !ctx.deleteFails then [.deleteMessage] else []),
               sess1, store)
    | _ => .error (.valueError, sess1, store)
  else if isPrefB ( "compartilhar:").toList cs then
    let file_path := afterFirstColon data
    match splitFirstCh '/' file_path.toList with
    | [catL, fnL] =>
      let category := String.mk catL
      let filename := String.mk fnL
      if !existsFile store category filename then
        match editOrSendNoTry ctx "❌ Arquivo não encontrado." with
        | .ok effs => .ok ([.answerCallback] ++ effs, sess, store)
        | .error e => .error (e, sess, store)
      else
        .ok ([.answerCallback] ++
             (if ctx.hasMsg then
                if ctx.editFails then [.sendMessage "❌ Erro ao compartilhar: "]
                else [.editMessage (shareMsg category filename)]
              else [.sendMessage (shareMsg category filename)]),
             sess, store)
    | _ => .error (.valueError, sess, store)
  else if isPrefB ( "voltar_categoria:").toList cs then
    let category := afterFirstColon data
    let arquivos := list_files_in_category store category
    let menu_text :=
      if arquivos.isEmpty then
        "📂 Categoria \x27" ++ category ++ "\x27 está vazia.\nEnvie arquivos para adicionar a esta categoria."
      else
        "📂 Arquivos na categoria \x27" ++ category ++ "\x27:\nClique em um arquivo para visualizar:"
    .ok ([.answerCallback] ++ editOrSendFallback ctx menu_text, sess, store)
  else if cs == ( "voltar_menu").toList then
    .ok ([.answerCallback] ++ editOrSendFallback ctx "🔍 Menu Principal - Escolha uma opção:",
         sess, store)
  else if cs == ( "categorias").toList then
    let menu_text :=
      if (list_categories store).isEmpty then
        "📂 Nenhuma categoria disponível ainda.\nClique em \x27Nova Categoria\x27 para criar uma."
      else
        "📂 Categorias disponíveis:\nClique em uma categoria para ver os arquivos:"
    .ok ([.answerCallback] ++ editOrSendFallback ctx menu_text, sess, store)
  else if cs == ( "criar_categoria_menu").toList then
    .ok ([.answerCallback] ++ editOrSendFallback ctx "➕ Criar Nova Categoria\n\nDigite o nome da nova categoria:",
         { sess with modo := some "nova_categoria" }, store)
  else if cs == ( "buscar").toList then
    .ok ([.answerCallback] ++ editOrSendFallback ctx "🔍 Busca de Arquivos\n\nDigite o nome (ou parte do nome) do arquivo que você está procurando:",
         { sess with modo := some "buscar" }, store)
  else if cs == ( "renomear").toList then
    .ok ([.answerCallback] ++ editOrSendFallback ctx "📝 Renomear Arquivo\n\nDigite no formato:\n`categoria/nome_antigo.ext -> novo_nome.ext`\n\nExemplo: `documentos/contrato.pdf -> contrato_2023.pdf`",
         { sess with modo := some "renomear" }, store)
  else if cs == ( "excluir").toList then
    .ok ([.answerCallback] ++ editOrSendFallback ctx "❌ Excluir Arquivo\n\nDigite o caminho do arquivo a ser excluído no formato:\n`categoria/arquivo.ext`\n\nExemplo: `fotos/imagem.jpg`",
         { sess with modo := some "excluir" }, store)
  else
    .ok ([.answerCallback], sess, store)
theorem beqComm {α : Type} [BEq α] [LawfulBEq α] (a b : α) : (a == b) = (b == a) := by
  by_cases h : a = b
  · subst h; rfl
  · rw [beq_eq_false_iff_ne.mpr h, beq_eq_false_iff_ne.mpr (Ne.symm h)]

theorem mk_data (s : String) : String.mk s.data = s := rfl

theorem substrB_single (a : Char) (cs : List Char) :
    substrB [a] cs = cs.any (fun c => a == c) := by
  induction cs with
  | nil => rfl
  | cons c rest ih => simp [substrB, isPrefB, ih]

theorem splitFirstCh_no_sep (sep : Char) (cs : List Char)
    (h : cs.any (fun c => sep == c) = false) :
    splitFirstCh sep cs = [cs] := by
  induction cs with
  | nil => rfl
  | cons c rest ih =>
    simp only [List.any_cons, Bool.or_eq_false_iff] at h
    have hc : (c == sep) = false := by rw [beqComm]; exact h.1
    simp [splitFirstCh, hc, ih h.2]

theorem splitFirstCh_first (sep : Char) (cs ds : List Char)
    (h : cs.any (fun c => sep == c) = false) :
    splitFirstCh sep (cs ++ sep :: ds) = [cs, ds] := by
  induction cs with
  | nil => simp [splitFirstCh]
  | cons c rest ih =>
    simp only [List.any_cons, Bool.or_eq_false_iff] at h
    have hc : (c == sep) = false := by rw [beqComm]; exact h.1
    simp [splitFirstCh, hc, ih h.2]

/-- C8: a visualizar:category/filename payload for a file absent from storage answers the callback, replies with the not-found message (an edit when a message is attached, else a send), transmits no photo and no document, leaves the store unchanged, and records the path in the session. -/
theorem C8_visualizar_missing_file_not_found (ctx : Ctx) (sess : Session) (store : Store) (cat fn : String)
    (hcat : pyIn "/" cat = false)
    (hmiss : existsFile store cat fn = false)
    (hedit : ctx.editFails = false) :
    botao_clicado ctx sess store ( "visualizar:" ++ cat ++ "/" ++ fn) =
      .ok ([.answerCallback,
            if ctx.hasMsg then .editMessage "❌ Arquivo não encontrado."
            else .sendMessage "❌ Arquivo não encontrado."],
           { sess with current_file_path := some (cat ++ "/" ++ fn) }, store) := by
  have hslash : ( "/").data = ['/'] := rfl
  have h1 : cat.data.any (fun c => '/' == c) = false := by
    simp only [pyIn, String.toList, hslash, substrB_single] at hcat
    exact hcat
  have h3 : splitFirstCh '/' (cat.data ++ '/' :: fn.data) = [cat.data, fn.data] :=
    splitFirstCh_first '/' cat.data fn.data h1
  have h2 : (cat ++ "/" ++ fn).data = cat.data ++ '/' :: fn.data := by
    simp [String.data_append, hslash]
  have hpath : String.mk (cat.data ++ '/' :: fn.data) = cat ++ "/" ++ fn := by
    rw [← h2, mk_data]
  cases hm : ctx.hasMsg <;>
    simp [botao_clicado, afterFirstColon, String.toList, String.data_append,
          isPrefB, splitFirstCh, h3, h2, hpath, mk_data, hmiss,
          editOrSendNoTry, hedit, hm]

/-- C6 counterexample: the payload "visualizar:semslash", whose argument contains no "/", raises ValueError out of botao_clicado (two-variable unpacking of a one-element split at telegram_bot.py line 775). -/
theorem C6_visualizar_no_slash_raises :
    botao_clicado {} {} [] "visualizar:semslash" =
      .error (.valueError, { current_file_path := some "semslash" }, []) := rfl

/-- C6 (amended): a payload matching no entry of the dispatch chain is a silent no-op that does not raise (the callback is answered, session and store are untouched, and nothing is logged); however a visualizar: or compartilhar: payload whose argument contains no "/" raises ValueError out of the handler. -/
theorem C6_router_dispatch_amended (ctx : Ctx) (sess : Session) (store : Store) :
    (∀ data, knownPayload data.toList = false →
       botao_clicado ctx sess store data = .ok ([.answerCallback], sess, store)) ∧
    (∀ arg, pyIn "/" arg = false →
       botao_clicado ctx sess store ( "visualizar:" ++ arg) =
         .error (.valueError, { sess with current_file_path := some arg }, store)) ∧
    (∀ arg, pyIn "/" arg = false →
       botao_clicado ctx sess store ( "compartilhar:" ++ arg) =
         .error (.valueError, sess, store)) := by
  have hslash : ( "/").data = ['/'] := rfl
  refine ⟨fun data h => ?_, fun arg h => ?_, fun arg h => ?_⟩
  · simp [knownPayload, Bool.or_eq_false_iff] at h
    simp [botao_clicado, h]
    intro hpre hlen
    simp [hpre, hlen] at h
  · have h1 : arg.data.any (fun c => '/' == c) = false := by
      simp only [pyIn, String.toList, hslash, substrB_single] at h
      exact h
    have h3 : splitFirstCh '/' arg.data = [arg.data] := splitFirstCh_no_sep '/' arg.data h1
    simp [botao_clicado, afterFirstColon, String.toList, String.data_append,
          isPrefB, splitFirstCh, h3, mk_data]
  · have h1 : arg.data.any (fun c => '/' == c) = false := by
      simp only [pyIn, String.toList, hslash, substrB_single] at h
      exact h
    have h3 : splitFirstCh '/' arg.data = [arg.data] := splitFirstCh_no_sep '/' arg.data h1
    simp [botao_clicado, afterFirstColon, String.toList, String.data_append,
          isPrefB, splitFirstCh, h3, mk_data]

/-- C7 counterexample: with the triggering message gone (every edit raising), the nova_categoria branch propagates the transport error out of botao_clicado and sends nothing: its edit has no fallback (telegram_bot.py lines 763-767). -/
theorem C7_nova_categoria_no_fallback :
    botao_clicado { editFails := true } {} [] "nova_categoria" =
      .error (.badRequest, {}, []) := rfl

/-- C7 (amended): with a message attached and every edit failing, the voltar_menu, categorias, criar_categoria_menu, buscar, renomear, excluir, dashboard, criar_nota and voltar_categoria branches all fall back to sending a new message, but nova_categoria propagates the edit failure, and renomear_antes_salvar catches it only to attempt another edit, which fails and propagates as well. -/
theorem C7_edit_fallback_amended (ctx : Ctx) (sess : Session) (store : Store) (c : String)
    (he : ctx.editFails = true) (hm : ctx.hasMsg = true) :
    botao_clicado ctx sess store "voltar_menu" =
      .ok ([.answerCallback, .sendMessage "🔍 Menu Principal - Escolha uma opção:"], sess, store) ∧
    botao_clicado ctx sess store "categorias" =
      .ok ([.answerCallback, .sendMessage
             (if (list_categories store).isEmpty then
               "📂 Nenhuma categoria disponível ainda.\nClique em \x27Nova Categoria\x27 para criar uma."
              else "📂 Categorias disponíveis:\nClique em uma categoria para ver os arquivos:")],
           sess, store) ∧
    botao_clicado ctx sess store "criar_categoria_menu" =
      .ok ([.answerCallback, .sendMessage "➕ Criar Nova Categoria\n\nDigite o nome da nova categoria:"],
           { sess with modo := some "nova_categoria" }, store) ∧
    botao_clicado ctx sess store "buscar" =
      .ok ([.answerCallback, .sendMessage "🔍 Busca de Arquivos\n\nDigite o nome (ou parte do nome) do arquivo que você está procurando:"],
           { sess with modo := some "buscar" }, store) ∧
    botao_clicado ctx sess store "renomear" =
      .ok ([.answerCallback, .sendMessage "📝 Renomear Arquivo\n\nDigite no formato:\n`categoria/nome_antigo.ext -> novo_nome.ext`\n\nExemplo: `documentos/contrato.pdf -> contrato_2023.pdf`"],
           { sess with modo := some "renomear" }, store) ∧
    botao_clicado ctx sess store "excluir" =
      .ok ([.answerCallback, .sendMessage "❌ Excluir Arquivo\n\nDigite o caminho do arquivo a ser excluído no formato:\n`categoria/arquivo.ext`\n\nExemplo: `fotos/imagem.jpg`"],
           { sess with modo := some "excluir" }, store) ∧
    botao_clicado ctx sess store "dashboard" =
      .ok ([.answerCallback, .sendMessage ctx.dashMsg], sess, store) ∧
    botao_clicado ctx sess store "criar_nota" =
      .ok ([.answerCallback, .sendMessage "❌ Erro ao criar nota. Por favor, tente novamente."],
           sess, store) ∧
    botao_clicado ctx sess store ( "voltar_categoria:" ++ c) =
      .ok ([.answerCallback, .sendMessage
             (if (list_files_in_category store c).isEmpty then
               "📂 Categoria \x27" ++ c ++ "\x27 está vazia.\nEnvie arquivos para adicionar a esta categoria."
              else "📂 Arquivos na categoria \x27" ++ c ++ "\x27:\nClique em um arquivo para visualizar:")],
           sess, store) ∧
    botao_clicado ctx sess store "nova_categoria" = .error (.badRequest, sess, store) ∧
    botao_clicado ctx sess store "renomear_antes_salvar" = .error (.badRequest, sess, store) := by
  refine ⟨?_, ?_, ?_, ?_, ?_, ?_, ?_, ?_, ?_, ?_, ?_⟩ <;>
    simp [botao_clicado, editOrSendFallback, he, hm, afterFirstColon,
          String.toList, String.data_append, isPrefB, splitFirstCh, mk_data]

/-- C1 counterexample: in mode buscar with the two-character text "ab", tratar_texto returns with session mode still "buscar", not cleared: the minimum-length check returns before the try/finally that pops the mode (telegram_bot.py lines 1291-1294 versus 1296/1326). -/
theorem C1_buscar_short_term_keeps_mode :
    (tratar_texto false { modo := some "buscar" } [] "ab" "T").2.1.modo = some "buscar" := rfl

/-- C1 (amended): after tratar_texto returns, the mode is cleared in the renomear and excluir branches always (their validation returns sit inside the try, so the finally pops the mode), in buscar only when the lowercased term has at least 3 characters, and in renomear_antes_salvar, criar_nota_conteudo and nova_categoria only when the text survives validation; criar_nota_titulo transitions the mode to criar_nota_conteudo instead of clearing it; the mode-none branch leaves the mode none. -/
theorem C1_mode_clearing_amended (saveFail : Bool) (sess : Session) (store : Store) (text ts : String) :
    (sess.modo = none → (tratar_texto saveFail sess store text ts).2.1.modo = none) ∧
    (sess.modo = some "renomear" → (tratar_texto saveFail sess store text ts).2.1.modo = none) ∧
    (sess.modo = some "excluir" → (tratar_texto saveFail sess store text ts).2.1.modo = none) ∧
    (sess.modo = some "buscar" → (tratar_texto saveFail sess store text ts).2.1.modo =
       if (pyLower text).length < 3 then some "buscar" else none) ∧
    (sess.modo = some "renomear_antes_salvar" → (tratar_texto saveFail sess store text ts).2.1.modo =
       if pyStrip text == "" then some "renomear_antes_salvar" else none) ∧
    (sess.modo = some "criar_nota_titulo" → (tratar_texto saveFail sess store text ts).2.1.modo =
       if pyStrip text == "" then some "criar_nota_titulo" else some "criar_nota_conteudo") ∧
    (sess.modo = some "criar_nota_conteudo" → (tratar_texto saveFail sess store text ts).2.1.modo =
       if text == "" then some "criar_nota_conteudo" else none) ∧
    (sess.modo = some "nova_categoria" → (tratar_texto saveFail sess store text ts).2.1.modo =
       if pyStrip text == "" then some "nova_categoria" else none) := by
  refine ⟨?_, ?_, ?_, ?_, ?_, ?_, ?_, ?_⟩ <;>
    (intro h; simp only [tratar_texto, h]) <;>
    (repeat' split) <;> simp_all

/-- C9 counterexample: in mode renomear the input "docs/a.txt -> b -> c", which under split-on-first-arrow semantics would rename docs/a.txt to "b -> c" (the source exists and that target does not), instead yields the generic rename error and leaves the store unchanged: split on "->" produces three parts and the unpacking raises. -/
theorem C9_extra_arrow_not_parsed :
    tratar_texto false { modo := some "renomear" } [( "docs", [( "a.txt", "1")])]
        "docs/a.txt -> b -> c" "T" =
      ([.sendMessage renomearGenericErr], { modo := none },
       [( "docs", [( "a.txt", "1")])]) ∧
    existsFile [( "docs", [( "a.txt", "1")])] "docs" "a.txt" = true ∧
    existsFile [( "docs", [( "a.txt", "1")])] "docs" "b -> c" = false := by
  refine ⟨rfl, rfl, rfl⟩

/-- C9 (amended): the renomear handler requires the split on "->" to yield exactly two parts and the split of the stripped left part on "/" to yield exactly two parts; extra separators make the unpacking raise, reported as the generic rename error with no storage call, while the exactly-two case calls rename with those parts; an input missing the "->" separator, or whose left part contains no "/", gets the corresponding format-error reply with no storage call; the excluir handler behaves the same for its single "/" split. -/
theorem C9_split_exact_arity_amended (saveFail : Bool) (sess : Session) (store : Store) (text ts : String) :
    (sess.modo = some "renomear" → pyIn "->" (pyStrip text) = false →
       tratar_texto saveFail sess store text ts =
         ([.sendMessage "❌ Formato inválido. Use: categoria/nome_antigo.ext -> novo_nome.ext"],
          { sess with modo := none }, store)) ∧
    (sess.modo = some "renomear" → pyIn "->" (pyStrip text) = true →
       ∀ l1 l2 l3 rest, pySplitArrow (pyStrip text) = l1 :: l2 :: l3 :: rest →
       tratar_texto saveFail sess store text ts =
         ([.sendMessage renomearGenericErr], { sess with modo := none }, store)) ∧
    (sess.modo = some "renomear" → pyIn "->" (pyStrip text) = true →
       ∀ p1 nn, pySplitArrow (pyStrip text) = [p1, nn] →
       pyIn "/" p1 = false →
       tratar_texto saveFail sess store text ts =
         ([.sendMessage "❌ Formato inválido. Especifique a categoria: categoria/nome_antigo.ext"],
          { sess with modo := none }, store)) ∧
    (sess.modo = some "renomear" → pyIn "->" (pyStrip text) = true →
       ∀ p1 nn, pySplitArrow (pyStrip text) = [p1, nn] →
       pyIn "/" p1 = true →
       ∀ l1 l2 l3 rest, pySplitCh (pyStrip p1) '/' = l1 :: l2 :: l3 :: rest →
       tratar_texto saveFail sess store text ts =
         ([.sendMessage renomearGenericErr], { sess with modo := none }, store)) ∧
    (sess.modo = some "renomear" → pyIn "->" (pyStrip text) = true →
       ∀ p1 nn, pySplitArrow (pyStrip text) = [p1, nn] →
       pyIn "/" p1 = true →
       ∀ c a, pySplitCh (pyStrip p1) '/' = [c, a] →
       (tratar_texto saveFail sess store text ts).2.2 =
         (match rename_file store c a (pyStrip nn) with
          | .ok st2 => st2
          | .error _ => store) ∧
       (tratar_texto saveFail sess store text ts).2.1.modo = none) ∧
    (sess.modo = some "excluir" → pyIn "/" (pyStrip text) = false →
       tratar_texto saveFail sess store text ts =
         ([.sendMessage "❌ Formato inválido. Use: categoria/arquivo.ext"],
          { sess with modo := none }, store)) ∧
    (sess.modo = some "excluir" → pyIn "/" (pyStrip text) = true →
       ∀ l1 l2 l3 rest, pySplitCh (pyStrip text) '/' = l1 :: l2 :: l3 :: rest →
       tratar_texto saveFail sess store text ts =
         ([.sendMessage excluirGenericErr], { sess with modo := none }, store)) ∧
    (sess.modo = some "excluir" → pyIn "/" (pyStrip text) = true →
       ∀ c n, pySplitCh (pyStrip text) '/' = [c, n] →
       (tratar_texto saveFail sess store text ts).2.2 =
         (match delete_file store c n with
          | .ok st2 => st2
          | .error _ => store) ∧
       (tratar_texto saveFail sess store text ts).2.1.modo = none) := by
  refine ⟨fun h hp => ?_, fun h hp l1 l2 l3 rest hs => ?_,
          fun h hp p1 nn hs hp1 => ?_,
          fun h hp p1 nn hs hp1 l1 l2 l3 rest hs2 => ?_,
          fun h hp p1 nn hs hp1 c a hs2 => ?_, fun h hp => ?_,
          fun h hp l1 l2 l3 rest hs => ?_, fun h hp c n hs => ?_⟩
  · simp [tratar_texto, h, hp]
  · simp [tratar_texto, h, hp, hs]
  · simp [tratar_texto, h, hp, hs, hp1]
  · simp [tratar_texto, h, hp, hs, hp1, hs2]
  · refine ⟨?_, ?_⟩ <;>
      (simp only [tratar_texto, h, hp, hs, hs2, Bool.not_true]
       rcases hr : rename_file store c a (pyStrip nn) with e | st2
       · rcases e <;> simp [hr, hp1]
       · simp [hr, hp1])
  · simp [tratar_texto, h, hp]
  · simp [tratar_texto, h, hp, hs]
  · refine ⟨?_, ?_⟩ <;>
      (simp only [tratar_texto, h, hp, hs, Bool.not_true]
       rcases hr : delete_file store c n with e | st2
       · rcases e <;> simp [hr]
       · simp [hr])

theorem splitextGo_append : ∀ (cs : List Char) (seen : Bool) (b e : List Char),
    splitextGo cs seen = some (b, e) → b ++ e = cs := by
  intro cs
  induction cs with
  | nil => intro seen b e h; simp [splitextGo] at h
  | cons c rest ih =>
    intro seen b e h
    rcases hgo : splitextGo rest (seen || c != '.') with _ | p
    · simp only [splitextGo, hgo] at h
      split at h
      · simp only [Option.some.injEq, Prod.mk.injEq] at h
        rw [← h.1, ← h.2]
        rfl
      · exact absurd h (by simp)
    · rcases p with ⟨b0, e0⟩
      simp only [splitextGo, hgo, Option.some.injEq, Prod.mk.injEq] at h
      rw [← h.1, ← h.2]
      have hb := ih (seen || c != '.') b0 e0 hgo
      simp [hb]

theorem splitext_append (p : String) : (splitext p).1 ++ (splitext p).2 = p := by
  rcases hgo : splitextGo p.toList false with _ | q
  · simp only [splitext, hgo]
    simp
  · rcases q with ⟨b, e⟩
    simp only [splitext, hgo]
    have hbe := splitextGo_append p.toList false b e hgo
    calc String.mk b ++ String.mk e = String.mk (b ++ e) := rfl
    _ = String.mk p.toList := by rw [hbe]
    _ = p := mk_data p

theorem splitext_len (p : String) :
    (splitext p).1.length + (splitext p).2.length = p.length := by
  have h := splitext_append p
  calc (splitext p).1.length + (splitext p).2.length
      = ((splitext p).1 ++ (splitext p).2).length := (String.length_append _ _).symm
  _ = p.length := by rw [h]

theorem timestamped_ne (nome ts : String) :
    (splitext nome).1 ++ "_" ++ ts ++ (splitext nome).2 ≠ nome := by
  intro hEq
  have h1 := congrArg String.length hEq
  rw [String.length_append, String.length_append, String.length_append] at h1
  have h2 := splitext_len nome
  have hu : ( "_").length = 1 := rfl
  rw [hu] at h1
  omega

theorem ensure_of_existsFile (s : Store) (c n : String) (h : existsFile s c n = true) :
    ensure_category_exists s c = s := by
  have hc : existsCat s c = true := by
    simp only [existsFile, List.any_eq_true] at h
    rcases h with ⟨cat, hmem, hcat⟩
    rw [Bool.and_eq_true] at hcat
    simp only [existsCat, List.any_eq_true]
    exact ⟨cat, hmem, hcat.1⟩
  simp [ensure_category_exists, hc]

theorem findSome_none_of_any_false (files : List (String × String)) (n : String)
    (h : files.any (fun f => f.1 == n) = false) :
    files.findSome? (fun f => if f.1 = n then some f.2 else none) = none := by
  induction files with
  | nil => rfl
  | cons f rest ih =>
    simp only [List.any_cons, Bool.or_eq_false_iff] at h
    have h1 : ¬(f.1 = n) := by simpa using h.1
    simp [List.findSome?_cons, h1, ih h.2]

theorem findSome_write_map (files : List (String × String)) (fin content n : String)
    (hn : ¬(fin = n)) :
    (files.map (fun f => if f.1 = fin then (fin, content) else f)).findSome?
        (fun f => if f.1 = n then some f.2 else none) =
      files.findSome? (fun f => if f.1 = n then some f.2 else none) := by
  induction files with
  | nil => rfl
  | cons f rest ih =>
    by_cases hf : f.1 = fin
    · simp [List.findSome?_cons, hf, hn, ih]
    · by_cases hq : f.1 = n
      · have hn2 : ¬(n = fin) := fun hh => hn hh.symm
        simp [List.findSome?_cons, hf, hq, hn2]
      · simp [List.findSome?_cons, hf, hq, ih]

theorem findSome_write_append (files : List (String × String)) (fin content n : String)
    (hn : ¬(fin = n)) :
    (files ++ [(fin, content)]).findSome? (fun f => if f.1 = n then some f.2 else none) =
      files.findSome? (fun f => if f.1 = n then some f.2 else none) := by
  induction files with
  | nil => simp [List.findSome?_cons, hn]
  | cons f rest ih =>
    by_cases hq : f.1 = n <;> simp [List.findSome?_cons, hq, ih]

theorem findSome_append_hit (files : List (String × String)) (fin content : String)
    (h : files.any (fun f => f.1 == fin) = false) :
    (files ++ [(fin, content)]).findSome? (fun f => if f.1 = fin then some f.2 else none) =
      some content := by
  induction files with
  | nil => simp [List.findSome?_cons]
  | cons f rest ih =>
    simp only [List.any_cons, Bool.or_eq_false_iff] at h
    have h1 : ¬(f.1 = fin) := by simpa using h.1
    simp [List.findSome?_cons, h1, ih h.2]

theorem getContent_writeFile_other (s : Store) (c q n fin content : String)
    (hn : ¬(fin = n)) :
    getContent (writeFile s c fin content) q n = getContent s q n := by
  induction s with
  | nil =>
    by_cases hcq : c = q <;> simp [writeFile, getContent, List.findSome?_cons, hcq, hn]
  | cons cat rest ih =>
    by_cases hc : cat.1 = c
    · by_cases hq : cat.1 = q
      · have hinner :
            (writeInCat cat.2 fin content).findSome?
                (fun f => if f.1 = n then some f.2 else none) =
              cat.2.findSome? (fun f => if f.1 = n then some f.2 else none) := by
          by_cases hany : cat.2.any (fun f => f.1 == fin) = true
          · simp only [writeInCat, hany, if_true]
            exact findSome_write_map cat.2 fin content n hn
          · rw [Bool.not_eq_true] at hany
            simp only [writeInCat, hany, Bool.false_eq_true, if_false]
            exact findSome_write_append cat.2 fin content n hn
        simp [writeFile, getContent, List.findSome?_cons, hc, hq, hinner]
      · have hq2 : ¬(c = q) := by rw [← hc]; exact hq
        simp [writeFile, getContent, List.findSome?_cons, hc, hq2]
    · by_cases hq : cat.1 = q
      · have hc2 : ¬(q = c) := by rw [← hq]; exact hc
        rcases hhead : cat.2.findSome? (fun f => if f.1 = n then some f.2 else none)
          with _ | v <;>
          simp only [getContent] at ih <;>
          simp [writeFile, getContent, List.findSome?_cons, hc2, hq, hhead, ih]
      · simp only [getContent] at ih
        simp [writeFile, getContent, List.findSome?_cons, hc, hq, ih]

theorem getContent_writeFile_same (s : Store) (c fin content : String)
    (h : existsFile s c fin = false) :
    getContent (writeFile s c fin content) c fin = some content := by
  induction s with
  | nil => simp [writeFile, getContent, List.findSome?_cons]
  | cons cat rest ih =>
    simp only [existsFile, List.any_cons, Bool.or_eq_false_iff] at h
    by_cases hc : cat.1 = c
    · have hany : cat.2.any (fun f => f.1 == fin) = false := by
        rcases Bool.and_eq_false_iff.mp h.1 with h1 | h1
        · exact absurd h1 (by simp [hc])
        · exact h1
      simp only [writeFile, hc, if_true, getContent, List.findSome?_cons, writeInCat,
                 hany, Bool.false_eq_true, if_false]
      simp [hc, findSome_append_hit cat.2 fin content hany]
    · have ih2 := ih (by simp only [existsFile]; exact h.2)
      simp only [getContent] at ih2
      simp [writeFile, getContent, List.findSome?_cons, hc, ih2]

/-- C3 counterexample: committing "report.pdf" into a category that already holds both "report.pdf" and "report_T.pdf" at timestamp T silently overwrites the pre-existing "report_T.pdf" (its content "keep" becomes "new"): the timestamped name is never re-checked for existence. -/
theorem C3_timestamp_collision_overwrite :
    existsFile [( "docs", [( "report.pdf", "old"), ( "report_T.pdf", "keep")])]
        "docs" "report_T.pdf" = true ∧
    getContent [( "docs", [( "report.pdf", "old"), ( "report_T.pdf", "keep")])]
        "docs" "report_T.pdf" = some "keep" ∧
    (salvar_arquivo_categoria false
        { temp_file := some { nome := "report.pdf", tipo := "note", conteudo := "new" } }
        [( "docs", [( "report.pdf", "old"), ( "report_T.pdf", "keep")])] "docs" "T").2.2 =
      [( "docs", [( "report.pdf", "old"), ( "report_T.pdf", "new")])] := by
  refine ⟨rfl, rfl, rfl⟩

/-- C3 (amended): when the staged name collides, the final name is deterministically the base name, an underscore, the timestamp and the extension, and differs from the staged name; provided the timestamped name is not itself already present in the category, every pre-existing file (the colliding one included) keeps its content and the upload lands under the final name. -/
theorem C3_collision_rename_amended (sess : Session) (store : Store) (c ts : String) (tf : TempFile)
    (h0 : sess.temp_file = some tf)
    (htipo : (tf.tipo == "note" || tf.caminhoExists) = true)
    (h1 : existsFile store c tf.nome = true)
    (h2 : existsFile store c
        ((splitext tf.nome).1 ++ "_" ++ ts ++ (splitext tf.nome).2) = false) :
    collision_final_name store c tf.nome ts =
      (splitext tf.nome).1 ++ "_" ++ ts ++ (splitext tf.nome).2 ∧
    collision_final_name store c tf.nome ts ≠ tf.nome ∧
    (∀ n, existsFile store c n = true →
      getContent (salvar_arquivo_categoria false sess store c ts).2.2 c n =
        getContent store c n) ∧
    getContent (salvar_arquivo_categoria false sess store c ts).2.2 c
        ((splitext tf.nome).1 ++ "_" ++ ts ++ (splitext tf.nome).2) = some tf.conteudo := by
  have hens : ensure_category_exists store c = store := ensure_of_existsFile store c tf.nome h1
  have hfin : collision_final_name store c tf.nome ts =
      (splitext tf.nome).1 ++ "_" ++ ts ++ (splitext tf.nome).2 := by
    simp [collision_final_name, h1]
  have hstore : (salvar_arquivo_categoria false sess store c ts).2.2 =
      writeFile store c ((splitext tf.nome).1 ++ "_" ++ ts ++ (splitext tf.nome).2)
        tf.conteudo := by
    rw [Bool.or_eq_true] at htipo
    rcases htipo with ht | ht
    · simp [salvar_arquivo_categoria, h0, hens, hfin, ht]
    · by_cases hno : (tf.tipo == "note") = true <;>
        simp [salvar_arquivo_categoria, h0, hens, hfin, ht, hno]
  refine ⟨hfin, ?_, fun n hn => ?_, ?_⟩
  · rw [hfin]; exact timestamped_ne tf.nome ts
  · have hne : ¬((splitext tf.nome).1 ++ "_" ++ ts ++ (splitext tf.nome).2 = n) := by
      intro hEq
      rw [hEq] at h2
      rw [hn] at h2
      exact absurd h2 (by simp)
    rw [hstore]
    exact getContent_writeFile_other store c c n _ tf.conteudo hne
  · rw [hstore]
    exact getContent_writeFile_same store c _ tf.conteudo h2

/-- C4 counterexample: the term "doc" is a hit of the spec-modelled category/filename search on a store holding docs/a.txt, yet search_files returns nothing: the code matches the file name only, so a term occurring only in the category name does not match. -/
theorem C4_category_only_term_does_not_match :
    ( "docs/a.txt") ∈ search_files_spec [( "docs", [( "a.txt", "x")])] "doc" ∧
    search_files [( "docs", [( "a.txt", "x")])] "doc" = [] := by decide

/-- C4 (amended): search matches by case-insensitive substring over the file name only: a string is in the result list exactly when it is "category/filename" for a stored file whose lowercased name contains the lowercased term. -/
theorem C4_search_matches_filename_only (s : Store) (term r : String) :
    r ∈ search_files s term ↔
      ∃ c files n content, (c, files) ∈ s ∧ (n, content) ∈ files ∧
        pyIn (pyLower term) (pyLower n) = true ∧ r = c ++ "/" ++ n := by
  simp only [search_files, List.mem_flatMap, List.mem_map, List.mem_filter]
  constructor
  · rintro ⟨cat, hcat, f, ⟨hf, hmatch⟩, rfl⟩
    exact ⟨cat.1, cat.2, f.1, f.2, hcat, hf, hmatch, rfl⟩
  · rintro ⟨c, files, n, content, hcf, hnc, hm, rfl⟩
    exact ⟨(c, files), hcf, (n, content), ⟨hnc, hm⟩, rfl⟩

/-- C1 witness: the amended theorem applied at concrete sessions and texts. -/
theorem C1_mode_clearing_amended_witness :
    (tratar_texto false { modo := some "buscar" } [] "abcd" "T").2.1.modo =
      (if (pyLower "abcd").length < 3 then some "buscar" else none) ∧
    (tratar_texto false { modo := some "renomear" } [] "x" "T").2.1.modo = none :=
  ⟨(C1_mode_clearing_amended false { modo := some "buscar" } [] "abcd" "T").2.2.2.1 rfl,
   (C1_mode_clearing_amended false { modo := some "renomear" } [] "x" "T").2.1 rfl⟩

/-- C3 witness: the amended theorem applied at a one-file store with a colliding upload. -/
theorem C3_collision_rename_amended_witness :
    collision_final_name [( "docs", [( "report.pdf", "old")])] "docs" "report.pdf" "T" =
      (splitext "report.pdf").1 ++ "_" ++ "T" ++ (splitext "report.pdf").2 ∧
    getContent (salvar_arquivo_categoria false
        { temp_file := some { nome := "report.pdf", tipo := "note", conteudo := "new" } }
        [( "docs", [( "report.pdf", "old")])] "docs" "T").2.2 "docs" "report.pdf" =
      getContent [( "docs", [( "report.pdf", "old")])] "docs" "report.pdf" ∧
    getContent (salvar_arquivo_categoria false
        { temp_file := some { nome := "report.pdf", tipo := "note", conteudo := "new" } }
        [( "docs", [( "report.pdf", "old")])] "docs" "T").2.2 "docs"
        ((splitext "report.pdf").1 ++ "_" ++ "T" ++ (splitext "report.pdf").2) = some "new" := by
  have h := C3_collision_rename_amended
      { temp_file := some { nome := "report.pdf", tipo := "note", conteudo := "new" } }
      [( "docs", [( "report.pdf", "old")])] "docs" "T"
      { nome := "report.pdf", tipo := "note", conteudo := "new" }
      rfl (by decide) (by decide) (by decide)
  exact ⟨h.1, h.2.2.1 "report.pdf" (by decide), h.2.2.2⟩

/-- C6 witness: the amended theorem applied to an unknown verb and to slash-free visualizar and compartilhar arguments. -/
theorem C6_router_dispatch_amended_witness :
    botao_clicado {} {} [] "abracadabra" = .ok ([.answerCallback], {}, []) ∧
    botao_clicado {} {} [] ( "visualizar:" ++ "x") =
      .error (.valueError, { current_file_path := some "x" }, []) ∧
    botao_clicado {} {} [] ( "compartilhar:" ++ "x") = .error (.valueError, {}, []) :=
  ⟨(C6_router_dispatch_amended {} {} []).1 "abracadabra" (by decide),
   (C6_router_dispatch_amended {} {} []).2.1 "x" (by decide),
   (C6_router_dispatch_amended {} {} []).2.2 "x" (by decide)⟩

/-- C7 witness: the amended theorem applied at a concrete failing-edit context. -/
theorem C7_edit_fallback_amended_witness :
    botao_clicado { editFails := true } {} [] "voltar_menu" =
      .ok ([.answerCallback, .sendMessage "🔍 Menu Principal - Escolha uma opção:"], {}, []) ∧
    botao_clicado { editFails := true } {} [] "nova_categoria" =
      .error (.badRequest, {}, []) :=
  ⟨(C7_edit_fallback_amended { editFails := true } {} [] "fotos" rfl rfl).1,
   (C7_edit_fallback_amended { editFails := true } {} [] "fotos" rfl rfl).2.2.2.2.2.2.2.2.2.1⟩

/-- C8 witness: the theorem applied at the spec example visualizar:fotos/img.jpg on an empty store. -/
theorem C8_visualizar_missing_file_not_found_witness :
    botao_clicado {} {} [] ( "visualizar:" ++ "fotos" ++ "/" ++ "img.jpg") =
      .ok ([.answerCallback, .editMessage "❌ Arquivo não encontrado."],
           { current_file_path := some ( "fotos" ++ "/" ++ "img.jpg") }, []) :=
  C8_visualizar_missing_file_not_found {} {} [] "fotos" "img.jpg" (by decide) (by decide) rfl

/-- C9 witness: the amended theorem applied to a separator-free input, to a left part without a slash, to a left part whose slash split has three parts, and to a well-formed rename input. -/
theorem C9_split_exact_arity_amended_witness :
    tratar_texto false { modo := some "renomear" } [] "semarrow" "T" =
      ([.sendMessage "❌ Formato inválido. Use: categoria/nome_antigo.ext -> novo_nome.ext"],
       { modo := none }, []) ∧
    tratar_texto false { modo := some "renomear" } [] "a -> b" "T" =
      ([.sendMessage "❌ Formato inválido. Especifique a categoria: categoria/nome_antigo.ext"],
       { modo := none }, []) ∧
    tratar_texto false { modo := some "renomear" } [] "a/b/c -> d" "T" =
      ([.sendMessage renomearGenericErr], { modo := none }, []) ∧
    ((tratar_texto false { modo := some "renomear" }
        [( "docs", [( "a.txt", "1")])] "docs/a.txt -> b.txt" "T").2.2 =
      (match rename_file [( "docs", [( "a.txt", "1")])] "docs" "a.txt" (pyStrip " b.txt") with
       | .ok st2 => st2
       | .error _ => [( "docs", [( "a.txt", "1")])]) ∧
     (tratar_texto false { modo := some "renomear" }
        [( "docs", [( "a.txt", "1")])] "docs/a.txt -> b.txt" "T").2.1.modo = none) :=
  ⟨(C9_split_exact_arity_amended false { modo := some "renomear" } [] "semarrow" "T").1 rfl (by decide),
   (C9_split_exact_arity_amended false { modo := some "renomear" } [] "a -> b" "T").2.2.1
       rfl (by decide) "a " " b" (by decide) (by decide),
   (C9_split_exact_arity_amended false { modo := some "renomear" } [] "a/b/c -> d" "T").2.2.2.1
       rfl (by decide) "a/b/c " " d" (by decide) (by decide) "a" "b" "c" [] (by decide),
   (C9_split_exact_arity_amended false { modo := some "renomear" } [( "docs", [( "a.txt", "1")])]
       "docs/a.txt -> b.txt" "T").2.2.2.2.1 rfl (by decide) "docs/a.txt " " b.txt"
       (by decide) (by decide) "docs" "a.txt" (by decide)⟩

/-- C5: salvar_arquivo_categoria always returns a session without a pendingUpload: the finally arm deletes temp_file on the success path and on the error path alike, and the early return only happens when no upload was staged. -/
theorem C5_pending_upload_always_cleared (fail : Bool) (sess : Session) (store : Store) (categoria ts : String) :
    (salvar_arquivo_categoria fail sess store categoria ts).2.1.temp_file = none := by
  rcases h : sess.temp_file with _ | tf <;>
    cases fail <;> simp [salvar_arquivo_categoria, h]

theorem rename_old_absent (s : Store) (c a b : String) (hab : (a == b) = false) :
    existsFile (renameMap s c a b) c a = false := by
  induction s with
  | nil => rfl
  | cons cat rest ih =>
    simp only [renameMap, List.map_cons, existsFile, List.any_cons] at ih ⊢
    rw [Bool.or_eq_false_iff]
    refine ⟨?_, ih⟩
    by_cases hc : cat.1 == c
    · simp only [hc, if_true]
      rw [Bool.and_eq_false_iff]
      right
      rw [List.any_map, List.any_eq_false]
      intro f _
      by_cases hf : f.1 == a
      · have hba : (b == a) = false := by rw [beqComm]; exact hab
        simp [Function.comp, hf, hba]
      · simp [Function.comp, hf]
    · simp [hc]

theorem rename_new_present (s : Store) (c a b : String) (h : existsFile s c a = true) :
    existsFile (renameMap s c a b) c b = true := by
  induction s with
  | nil => exact absurd h (by simp [existsFile])
  | cons cat rest ih =>
    simp only [existsFile, List.any_cons, Bool.or_eq_true] at h
    simp only [renameMap, List.map_cons, existsFile, List.any_cons, Bool.or_eq_true]
    rcases h with h | h
    · left
      rw [Bool.and_eq_true] at h
      simp only [h.1, if_true]
      rw [Bool.and_eq_true]
      refine ⟨rfl, ?_⟩
      rw [List.any_map, List.any_eq_true]
      rw [List.any_eq_true] at h
      rcases h.2 with ⟨f, hf, hfa⟩
      exact ⟨f, hf, by simp [Function.comp, hfa]⟩
    · right; exact ih h

/-- C2: rename succeeds when the old name exists in the category and the new one does not, after which the old name is absent and the new one present; it raises FileExistsError when the target already exists and FileNotFoundError when the source is missing, returning no store in either error case, so presence is unchanged. -/
theorem C2_rename_semantics (s : Store) (c a b : String) :
    (existsFile s c a = true → existsFile s c b = false →
       rename_file s c a b = .ok (renameMap s c a b) ∧
       existsFile (renameMap s c a b) c a = false ∧
       existsFile (renameMap s c a b) c b = true) ∧
    (existsFile s c a = true → existsFile s c b = true →
       rename_file s c a b = .error .fileExists) ∧
    (existsFile s c a = false → rename_file s c a b = .error .fileNotFound) := by
  refine ⟨fun h1 h2 => ?_, fun h1 h2 => ?_, fun h1 => ?_⟩
  · have hab : (a == b) = false := by
      cases hq : a == b
      · rfl
      · have hx : a = b := eq_of_beq hq
        subst hx
        rw [h1] at h2
        exact absurd h2 (by simp)
    exact ⟨by simp [rename_file, h1, h2], rename_old_absent s c a b hab,
           rename_new_present s c a b h1⟩
  · simp [rename_file, h1, h2]
  · simp [rename_file, h1]

/-- C2 witness: the three rename cases applied at a concrete two-file store. -/
theorem C2_rename_semantics_witness :
    (rename_file [( "docs", [( "a.txt", "1"), ( "b.txt", "2")])] "docs" "a.txt" "c.txt" =
        .ok (renameMap [( "docs", [( "a.txt", "1"), ( "b.txt", "2")])] "docs" "a.txt" "c.txt") ∧
      existsFile (renameMap [( "docs", [( "a.txt", "1"), ( "b.txt", "2")])] "docs" "a.txt" "c.txt") "docs" "a.txt" = false ∧
      existsFile (renameMap [( "docs", [( "a.txt", "1"), ( "b.txt", "2")])] "docs" "a.txt" "c.txt") "docs" "c.txt" = true) ∧
    rename_file [( "docs", [( "a.txt", "1"), ( "b.txt", "2")])] "docs" "a.txt" "b.txt" = .error .fileExists ∧
    rename_file [( "docs", [( "a.txt", "1"), ( "b.txt", "2")])] "docs" "zz.txt" "c.txt" = .error .fileNotFound :=
  ⟨(C2_rename_semantics [( "docs", [( "a.txt", "1"), ( "b.txt", "2")])] "docs" "a.txt" "c.txt").1
      (by decide) (by decide),
   (C2_rename_semantics [( "docs", [( "a.txt", "1"), ( "b.txt", "2")])] "docs" "a.txt" "b.txt").2.1
      (by decide) (by decide),
   (C2_rename_semantics [( "docs", [( "a.txt", "1"), ( "b.txt", "2")])] "docs" "zz.txt" "c.txt").2.2
      (by decide)⟩

/-- C10: a save_to:category callback with no staged temp_file makes salvar_arquivo_categoria return None, and the two-variable unpacking in the router raises TypeError out of botao_clicado, with session and store untouched. -/
theorem C10_save_to_without_upload_typeerror (ctx : Ctx) (sess : Session) (store : Store) (cat : String)
    (h : sess.temp_file = none) :
    botao_clicado ctx sess store ( "save_to:" ++ cat) = .error (.typeError, sess, store) := by
  simp [botao_clicado, salvar_arquivo_categoria, h, isPrefB, String.toList, String.data_append]

/-- C10 witness: the theorem applied to save_to:docs on an empty session. -/
theorem C10_save_to_without_upload_typeerror_witness :
    botao_clicado {} {} [] ( "save_to:" ++ "docs") = .error (.typeError, {}, []) :=
  C10_save_to_without_upload_typeerror {} {} [] "docs" rfl
